import Mathlib

/-!
Verification of the DiseaseOutbreakForecast ingestion and normalization
pipeline (`src/collection.py`, `src/process.py`) via a shallow embedding.

Strings are modelled as Lean `String`s (lists of characters); Python's
`needle in haystack` substring test is `strContains`, `str.lower()` is
`pyLower`, `str.strip()` is `pyStrip` (all inputs of interest are ASCII,
where these agree with Python's semantics).

A Python dict field that may be absent is an `Option`; where a claim needs
the distinction between an absent key and a key bound to `None`/null, the
three-state `RawField` type is used.
-/

namespace DiseaseOutbreak

/-- Here `listIsInfix needle hay` decides whether `needle` occurs as a contiguous
sublist of `hay` (the model of Python's `needle in hay` on strings). -/
def listIsInfix (needle : List Char) : List Char → Bool
  | [] => needle.isEmpty
  | c :: t => needle.isPrefixOf (c :: t) || listIsInfix needle t

/-- Python's substring test `needle in hay`. -/
def strContains (hay needle : String) : Bool :=
  listIsInfix needle.data hay.data

/-- Python's `str.lower()` (ASCII model, character-wise). -/
def pyLower (s : String) : String :=
  ⟨s.data.map Char.toLower⟩

/-- Python's `str.strip()`: drop whitespace at both ends (ASCII model). -/
def pyStrip (s : String) : String :=
  ⟨((s.data.dropWhile Char.isWhitespace).reverse.dropWhile
      Char.isWhitespace).reverse⟩

/-- The list `OUTBREAK_KEYWORDS` from `collection.py` (note the capitalised final
entry `"Influenza"`, exactly as in the source). -/
def OUTBREAK_KEYWORDS : List String :=
  ["outbreak", "epidemic", "pandemic", "infection", "disease", "virus",
   "health emergency", "Influenza"]

/-- The WHO fetcher's relevance test on the combined text
(`keyword.lower() in text.lower()` for any keyword). -/
def who_is_relevant (text : String) : Bool :=
  OUTBREAK_KEYWORDS.any fun keyword => strContains (pyLower text) (pyLower keyword)

/-- The CDC fetcher's relevance test on the combined text: the text is
lowercased but the keyword is NOT (`keyword in combined_text` with
`combined_text = f"{title} {description}".lower()`). -/
def cdc_is_relevant (text : String) : Bool :=
  OUTBREAK_KEYWORDS.any fun keyword => strContains (pyLower text) keyword

/-- The HealthMap fetcher's relevance test
(`keyword.lower() in (title + " " + description).lower()`). -/
def hm_is_relevant (text : String) : Bool :=
  OUTBREAK_KEYWORDS.any fun keyword => strContains (pyLower text) (pyLower keyword)

/-- The Wikipedia fetcher's relevance test
(`keyword.lower() in event_text.lower()`). -/
def wiki_is_relevant (text : String) : Bool :=
  OUTBREAK_KEYWORDS.any fun keyword => strContains (pyLower text) (pyLower keyword)

/-- A value a Python dict may hold under one of the known keys: the key can
be absent, bound to `None`, or bound to a string. -/
inductive RawField where
  | absent : RawField
  | null : RawField
  | str : String → RawField
deriving DecidableEq

/-- A raw per-source record as it sits in the snapshot (a dict restricted to
the keys `preprocess_data` reads with `.get`; other keys are ignored by the
code and therefore not modelled). -/
structure RawItem where
  source : RawField
  title : RawField
  description : RawField
  link : RawField
  pubDate : RawField
  location : RawField
deriving DecidableEq

/-- Dict value never observed by any `.get` key: shorthand for building
items whose remaining fields are absent. -/
def RawItem.empty : RawItem :=
  ⟨.absent, .absent, .absent, .absent, .absent, .absent⟩

/-! ## Source collectors (`collection.py`)

Each fetcher is a function of the outcome of its transport collaborator
(the HTTP request / browser session), supplied as an `Except` value:
`.error e` models the transport step raising, `.ok payload` models a
successfully fetched-and-parsed payload. -/

/-- One `<item>` of the WHO RSS feed, as read by `fetch_who_data`. -/
structure RssItem where
  title : String
  description : String
  link : String
  pubDate : String
deriving DecidableEq

/-- Model of `fetch_who_data`: on transport failure return `[]` (the `except` block);
otherwise keep every item whose `title + description` matches a keyword, as
a record with `source = "WHO"` and no `location` key. -/
def fetch_who_data (transport : Except String (List RssItem)) : List RawItem :=
  match transport with
  | .error _ => []
  | .ok items =>
    items.foldl (fun acc item =>
      if who_is_relevant (item.title ++ item.description) then
        acc ++ [{ source := .str ("WHO"), title := .str item.title,
                  description := .str item.description, link := .str item.link,
                  pubDate := .str item.pubDate, location := .absent }]
      else acc) []

/-- One entry of the CDC media API `results` list; `none` models a missing
key (read by `.get(key, "N/A")`). -/
structure CdcResult where
  name : Option String
  description : Option String
  url : Option String
  datePublished : Option String
deriving DecidableEq

/-- Model of `fetch_cdc_data`: on transport failure return `[]`; otherwise keep every
result whose `f"{title} {description}"` (lowercased) contains a raw,
un-lowercased keyword, with `"N/A"` substituted for missing keys. -/
def fetch_cdc_data (transport : Except String (List CdcResult)) : List RawItem :=
  match transport with
  | .error _ => []
  | .ok results =>
    results.foldl (fun acc item =>
      let title := item.name.getD ("N/A")
      let description := item.description.getD ("N/A")
      if cdc_is_relevant (title ++ " " ++ description) then
        acc ++ [{ source := .str ("CDC"), title := .str title,
                  description := .str description,
                  link := .str (item.url.getD ("N/A")),
                  pubDate := .str (item.datePublished.getD ("N/A")),
                  location := .absent }]
      else acc) []

/-- One marker div (with a `title` attribute) inside `#map_canvas`;
`firstP` is the text of its first `<p>` child, when one exists. -/
structure HmMarker where
  title : String
  firstP : Option String
deriving DecidableEq

/-- The body of `fetch_healthmap_data`'s marker loop: skip markers whose
(stripped, lowercased) title contains `"your location"`, then keep the
keyword-relevant ones. `today` is `datetime.today().strftime("%Y-%m-%d")`. -/
def hmStep (today : String) (acc : List RawItem) (m : HmMarker) : List RawItem :=
  let title := pyStrip m.title
  let description := match m.firstP with
    | some p => pyStrip p
    | none => "N/A"
  if strContains (pyLower title) "your location" then acc
  else if hm_is_relevant (title ++ " " ++ description) then
    acc ++ [{ source := .str ("HealthMap"), title := .str title,
              description := .str description, link := .absent,
              pubDate := .str today, location := .str ("Unknown") }]
  else acc

/-- The marker loop of `fetch_healthmap_data` over all markers found in
`#map_canvas`, in document order. -/
def hm_process (today : String) (markers : List HmMarker) : List RawItem :=
  markers.foldl (hmStep today) []

/-- Model of `fetch_healthmap_data`. Here `navigate` is the browser start-up and page load
(`webdriver.Chrome(...)`; `driver.get(url)`): these run OUTSIDE the
`try/except`, so their failure propagates as an exception. `render` is
everything inside the `try`: the explicit waits and the parse; its failure
is caught and yields `[]`, as does a page without a `#map_canvas` section
(modelled as `.ok none`). -/
def fetch_healthmap_data (navigate : Except String Unit)
    (render : Except String (Option (List HmMarker))) (today : String) :
    Except String (List RawItem) :=
  match navigate with
  | .error e => .error e
  | .ok _ =>
    match render with
    | .error _ => .ok []
    | .ok none => .ok []
    | .ok (some markers) => .ok (hm_process today markers)

/-- One `<li>` of a Wikipedia current-events section: its text and the
`href` of its first `<a>` tag, when one exists. -/
structure WikiItem where
  text : String
  firstHref : Option String
deriving DecidableEq

/-- One entry of the Wikipedia aggregate's `events` list. -/
structure WikiEvent where
  title : String
  link : String
deriving DecidableEq

/-- The Wikipedia aggregate record (`source`/`title`/`events` dict). -/
structure WikiRecord where
  source : String
  title : String
  events : List WikiEvent
deriving DecidableEq

/-- The event dict built for one relevant `<li>`: stripped text, and the
resolved absolute URL of the first hyperlink, or `"N/A"`. -/
def wikiCandidate (item : WikiItem) : WikiEvent :=
  { title := pyStrip item.text,
    link := match item.firstHref with
      | some href => "https://en.wikipedia.org" ++ href
      | none => "N/A" }

/-- The body of the Wikipedia `<li>` loop: append the candidate when the
stripped text matches a keyword. -/
def wikiStep (acc : List WikiEvent) (item : WikiItem) : List WikiEvent :=
  if wiki_is_relevant (pyStrip item.text) then acc ++ [wikiCandidate item]
  else acc

/-- Model of `fetch_wikipedia_data`: the payload is the list of current-events
sections, each a list of `<li>` items in document order. On transport
failure the aggregate with empty `events` is returned; otherwise the
relevance-passing candidates are accumulated across sections and the list
is capped with `[:10]` at the end. -/
def fetch_wikipedia_data (transport : Except String (List (List WikiItem))) :
    WikiRecord :=
  match transport with
  | .error _ => { source := "Wikipedia", title := "Current Outbreak Events",
                  events := [] }
  | .ok sections =>
    { source := "Wikipedia", title := "Current Outbreak Events",
      events :=
        (sections.foldl (fun acc sec => sec.foldl wikiStep acc) []).take 10 }

/-! ## Preprocessing (`process.py`) -/

/-- The raw snapshot (`raw_data.json`): a dict whose possible keys are the
four source names. `none` models an absent key; the Wikipedia value has the
aggregate shape, not a list of records. -/
structure Snapshot where
  who : Option (List RawItem)
  cdc : Option (List RawItem)
  healthMap : Option (List RawItem)
  wikipedia : Option WikiRecord

/-- Python's `item.get(key, default)`: an absent key yields the default, a
key bound to `None` yields `None` (which lands in the DataFrame as a
missing value, here the `Option`'s `none`), a string yields itself. -/
def pyGet (f : RawField) (default : String) : Option String :=
  match f with
  | .absent => some default
  | .null => none
  | .str s => some s

/-- A row of the combined DataFrame before `fillna`: each cell is either a
string or a missing value (`none`, i.e. a dict value that was `None`). -/
structure PreRow where
  source : Option String
  title : Option String
  description : Option String
  link : Option String
  pubDate : Option String
  location : Option String
deriving DecidableEq

/-- The dict appended to `combined` for one raw item found under snapshot
key `src`: `.get` with default `src` for `source`, `""` for
`title`/`description`/`link`/`pubDate` and `"Unknown"` for `location`. -/
def normalizeItem (src : String) (item : RawItem) : PreRow :=
  { source := pyGet item.source src,
    title := pyGet item.title (""),
    description := pyGet item.description (""),
    link := pyGet item.link (""),
    pubDate := pyGet item.pubDate (""),
    location := pyGet item.location ("Unknown") }

/-- Model of `raw_data.get(source, [])` for the three keys the loop visits (the
`"Wikipedia"` key is never requested by `preprocess_data`). -/
def sourceEntries (s : Snapshot) : String → List RawItem
  | "WHO" => s.who.getD []
  | "CDC" => s.cdc.getD []
  | "HealthMap" => s.healthMap.getD []
  | _ => []

/-- The `combined` list built by the loop
`for source in ["WHO", "CDC", "HealthMap"]: for item in entries: append`. -/
def combine (s : Snapshot) : List PreRow :=
  (["WHO", "CDC", "HealthMap"]).foldl
    (fun acc src => acc ++ (sourceEntries s src).map (normalizeItem src)) []

/-- Worker for `df.drop_duplicates()`: keep a row only when no equal row was
seen earlier (pandas keeps the first occurrence; `NaN` cells compare equal
to each other there, as `none = none` does here). -/
def dedupAux (seen : List PreRow) : List PreRow → List PreRow
  | [] => []
  | r :: rest =>
    if r ∈ seen then dedupAux seen rest
    else r :: dedupAux (r :: seen) rest

/-- Model of `df.drop_duplicates()`. -/
def dedup (rows : List PreRow) : List PreRow :=
  dedupAux [] rows

/-- A row after `df.fillna("Unknown")`: every remaining missing value is
replaced by the sentinel. -/
structure Row where
  source : String
  title : String
  description : String
  link : String
  pubDate : String
  location : String
deriving DecidableEq

/-- Model of `df.fillna("Unknown")` on one row. -/
def fillna (r : PreRow) : Row :=
  { source := r.source.getD ("Unknown"),
    title := r.title.getD ("Unknown"),
    description := r.description.getD ("Unknown"),
    link := r.link.getD ("Unknown"),
    pubDate := r.pubDate.getD ("Unknown"),
    location := r.location.getD ("Unknown") }

/-- A parsed timestamp (date resolution suffices for the strings the
pipeline produces). -/
structure Date where
  year : Nat
  month : Nat
  day : Nat
deriving DecidableEq

/-- Split a character list at `'-'` separators. -/
def splitDash : List Char → List (List Char)
  | [] => [[]]
  | c :: cs =>
    if c = '-' then [] :: splitDash cs
    else
      match splitDash cs with
      | [] => [[c]]
      | group :: groups => (c :: group) :: groups

/-- Decimal value of a digit list. -/
def digitsToNat (cs : List Char) : Nat :=
  cs.foldl (fun n c => n * 10 + (c.toNat - 48)) 0

/-- Model of the library call `pd.to_datetime(<cell>, errors="coerce")` on
one cell, restricted to the ISO `YYYY-MM-DD` layout the pipeline emits: a
parsable date yields a timestamp, anything else (including `""`, `"N/A"`,
`"Unknown"` and `"not-a-date"`) yields the missing-timestamp marker `NaT`,
modelled as `none`. The row itself is untouched either way. -/
def parseDate (s : String) : Option Date :=
  match splitDash s.data with
  | [y, m, d] =>
    if y.length = 4 && y.all Char.isDigit && m.length = 2 && m.all Char.isDigit
        && d.length = 2 && d.all Char.isDigit then
      let month := digitsToNat m
      let day := digitsToNat d
      if 1 ≤ month && month ≤ 12 && 1 ≤ day && day ≤ 31 then
        some ⟨digitsToNat y, month, day⟩
      else none
    else none
  | _ => none

/-- A row of the final table: `pubDate` is a timestamp or `NaT` (`none`). -/
structure FinalRow where
  source : String
  title : String
  description : String
  link : String
  pubDate : Option Date
  location : String
deriving DecidableEq

/-- The date coercion `df["pubDate"] = pd.to_datetime(df["pubDate"],
errors="coerce")` on one row: only the `pubDate` cell changes. -/
def coerceRow (r : Row) : FinalRow :=
  { source := r.source, title := r.title, description := r.description,
    link := r.link, pubDate := parseDate r.pubDate, location := r.location }

/-- The date-coercion statement with its `try/except`: on a DataFrame with
no rows the frame has no columns, so reading `df["pubDate"]` raises
`KeyError`, which the `except` catches, leaving the (empty) frame as it
was; on a non-empty frame every row's cell is coerced independently. -/
def finalizeRows (rows : List Row) : List FinalRow :=
  if rows.isEmpty then [] else rows.map coerceRow

/-- Model of `preprocess_data`: combine the three list-shaped sources, drop
duplicate rows, fill missing values with `"Unknown"`, then coerce the
publication dates. -/
def preprocess_data (s : Snapshot) : List FinalRow :=
  finalizeRows ((dedup (combine s)).map fillna)

example :
    preprocess_data
      { who := some [{ RawItem.empty with
                       title := .str ("Ebola outbreak"),
                       pubDate := .str ("2024-01-02") }],
        cdc := none, healthMap := none, wikipedia := none } =
      [{ source := "WHO", title := "Ebola outbreak", description := "",
         link := "", pubDate := some ⟨2024, 1, 2⟩, location := "Unknown" }] := by
  decide

example : parseDate ("not-a-date") = none := by decide
example : parseDate ("") = none := by decide

/-! ## Claim theorems -/

/-- A CDC-shaped raw record with no `description` key. -/
def cdcNoDescriptionInput : Snapshot :=
  { who := none,
    cdc := some [{ RawItem.empty with
                   title := .str ("Salmonella outbreak"),
                   link := .str ("https://cdc.example/x"),
                   pubDate := .str ("2024-01-02") }],
    healthMap := none, wikipedia := none }

/-- Claim C1 is false as stated: a CDC-shaped raw record with no
`description` key normalizes to `description = ""` (the `.get` default),
not to the sentinel `"Unknown"`. -/
theorem C1_counterexample :
    (preprocess_data cdcNoDescriptionInput).map FinalRow.description = [""] ∧
    ("" : String) ≠ "Unknown" := by
  decide

/-- Claim C1 (amended): the Normalizer substitutes the empty string `""`
for an absent `title`/`description`/`link`/`pubDate` key and `"Unknown"`
for an absent `location` key (it also substitutes the snapshot key for an
absent `source` key, and `fillna` turns a key bound to null into
`"Unknown"` in every field). -/
theorem C1_amended_normalization (src : String) (item : RawItem) :
    fillna (normalizeItem src item) =
      { source := match item.source with
          | .absent => src | .null => "Unknown" | .str s => s,
        title := match item.title with
          | .absent => "" | .null => "Unknown" | .str s => s,
        description := match item.description with
          | .absent => "" | .null => "Unknown" | .str s => s,
        link := match item.link with
          | .absent => "" | .null => "Unknown" | .str s => s,
        pubDate := match item.pubDate with
          | .absent => "" | .null => "Unknown" | .str s => s,
        location := match item.location with
          | .absent => "Unknown" | .null => "Unknown" | .str s => s } := by
  cases item with
  | mk so t d l p loc =>
    cases so <;> cases t <;> cases d <;> cases l <;> cases p <;> cases loc <;> rfl

/-- Two WHO-shaped records, one with the unparsable `pubDate`
`"not-a-date"` and one with no `pubDate` key at all. -/
def unparsableDateInput : Snapshot :=
  { who := some
      [{ RawItem.empty with
         title := .str ("virus A"), pubDate := .str ("not-a-date") },
       { RawItem.empty with title := .str ("virus B") }],
    cdc := none, healthMap := none, wikipedia := none }

/-- Claim C2 is false as stated: the row with the unparsable `pubDate`
`"not-a-date"` is kept, but its marker is `NaT` (`none`) — exactly the
same marker an absent `pubDate` field receives (absent key → `""` →
`NaT`), so the two are not distinguishable in the final table. -/
theorem C2_counterexample :
    (preprocess_data unparsableDateInput).map FinalRow.pubDate =
      [none, none] ∧
    (preprocess_data unparsableDateInput).length = 2 := by
  decide

/-- Claim C2 (amended): the TypeCoercer keeps every row at its position
(no row is dropped), coerces each row's `pubDate` independently of every
other row, and maps an unparsable string such as `"not-a-date"` to the
`NaT` marker (`none`) rather than to any timestamp — but that marker is
not distinct from the one an absent `pubDate` field ends up with. -/
theorem C2_amended_coercion (rows : List Row) (i : Nat) :
    (finalizeRows rows).length = rows.length ∧
    (finalizeRows rows).get? i = (rows.get? i).map coerceRow ∧
    parseDate ("not-a-date") = none := by
  refine ⟨?_, ?_, by decide⟩ <;>
    cases rows with
    | nil => simp [finalizeRows]
    | cons r rest =>
      simp [finalizeRows, ← List.map_cons, List.getElem?_map]

/-- Claim C3: the code contradicts the shared case-insensitive contract.
The keyword list's entry is the capitalised `"Influenza"`; the WHO filter
lowercases keywords before matching, but the CDC filter compares the raw
keyword against lowercased text, so the lowercase text `"influenza"` is
relevant to WHO and not to CDC. -/
theorem C3_influenza_divergence :
    who_is_relevant ("influenza") = true ∧
    cdc_is_relevant ("influenza") = false ∧
    "Influenza" ∈ OUTBREAK_KEYWORDS := by
  decide

/-- Claim C8: `preprocess_data` never reads the snapshot's Wikipedia entry
— replacing it by anything (any aggregate, any number of events, or
absence) leaves the final table unchanged; only WHO, CDC and HealthMap
contribute rows. -/
theorem C8_wikipedia_excluded (s : Snapshot) (w : Option WikiRecord) :
    preprocess_data { s with wikipedia := w } = preprocess_data s := by
  rfl

/-- Claim C10: a snapshot in which each of the WHO, CDC and HealthMap
keys is absent or empty yields the empty table — in particular the
date-coercion step on a zero-row frame (whose `df["pubDate"]` lookup
raises a caught `KeyError`) does not abort the run, which terminates and
returns an empty table. -/
theorem C10_empty_snapshot (s : Snapshot)
    (hw : s.who = none ∨ s.who = some [])
    (hc : s.cdc = none ∨ s.cdc = some [])
    (hh : s.healthMap = none ∨ s.healthMap = some []) :
    preprocess_data s = [] := by
  have hw' : s.who.getD [] = [] := by rcases hw with h | h <;> simp [h]
  have hc' : s.cdc.getD [] = [] := by rcases hc with h | h <;> simp [h]
  have hh' : s.healthMap.getD [] = [] := by rcases hh with h | h <;> simp [h]
  simp [preprocess_data, combine, sourceEntries, hw', hc', hh', dedup,
    dedupAux, finalizeRows]

/-- Witness for C10 at the all-absent snapshot. -/
theorem C10_empty_snapshot_witness :
    preprocess_data
      { who := none, cdc := none, healthMap := none, wikipedia := none } = [] :=
  C10_empty_snapshot _ (Or.inl rfl) (Or.inl rfl) (Or.inl rfl)

/-- Claim C6 is false as stated for the HealthMap collector: browser
start-up / initial page navigation happen before the `try` block, so their
failure propagates out of `fetch_healthmap_data` instead of degrading to an
empty result. -/
theorem C6_counterexample :
    fetch_healthmap_data (.error ("net::ERR_CONNECTION_TIMED_OUT")) (.ok none)
        "2025-01-01" = .error ("net::ERR_CONNECTION_TIMED_OUT") ∧
    fetch_healthmap_data (.error ("net::ERR_CONNECTION_TIMED_OUT")) (.ok none)
        "2025-01-01" ≠ .ok [] :=
  ⟨rfl, fun h => nomatch h⟩

/-- Claim C6 (amended): the WHO, CDC and Wikipedia collectors catch any
transport/parse failure and return an empty result, and the HealthMap
collector does so for failures of the in-`try` render waits and parsing —
but a failure of its browser start-up / initial navigation propagates.
Each collector reads only its own transport outcome, so a caught failure
leaves every other source's result unchanged. -/
theorem C6_amended_failure_isolation (e today : String) :
    fetch_who_data (.error e) = [] ∧
    fetch_cdc_data (.error e) = [] ∧
    (fetch_wikipedia_data (.error e)).events = [] ∧
    fetch_healthmap_data (.ok ()) (.error e) today = .ok [] :=
  ⟨rfl, rfl, rfl, rfl⟩

/-- Unfolding one section's `<li>` loop: accumulator-passing `foldl` of
`wikiStep` appends exactly the relevant items' candidates in order. -/
theorem wikiStep_foldl_eq (sec : List WikiItem) (acc : List WikiEvent) :
    sec.foldl wikiStep acc =
      acc ++ (sec.filter fun it =>
        wiki_is_relevant (pyStrip it.text)).map wikiCandidate := by
  induction sec generalizing acc with
  | nil => simp
  | cons it rest ih =>
    rw [List.foldl_cons, ih]
    unfold wikiStep
    by_cases h : wiki_is_relevant (pyStrip it.text) <;> simp [h]

/-- All sections: the nested loop is filter-then-map over the flattened
document-order item list. -/
theorem wiki_sections_foldl_eq (sections : List (List WikiItem))
    (acc : List WikiEvent) :
    sections.foldl (fun acc sec => sec.foldl wikiStep acc) acc =
      acc ++ ((sections.flatten).filter fun it =>
        wiki_is_relevant (pyStrip it.text)).map wikiCandidate := by
  induction sections generalizing acc with
  | nil => simp
  | cons sec rest ih =>
    rw [List.foldl_cons, ih, wikiStep_foldl_eq]
    simp

/-- Claim C7: the Wikipedia aggregate's `events` list is exactly the first
at-most-10 relevance-passing `<li>` items in document order — every item
is a relevance candidate, and the `[:10]` cap is applied after the
relevance filter. -/
theorem C7_wikipedia_events (sections : List (List WikiItem)) :
    (fetch_wikipedia_data (.ok sections)).events =
      (((sections.flatten).filter fun it =>
        wiki_is_relevant (pyStrip it.text)).map wikiCandidate).take 10 := by
  show (sections.foldl (fun acc sec => sec.foldl wikiStep acc) []).take 10 = _
  rw [wiki_sections_foldl_eq]
  simp

/-- Claim C9: a HealthMap marker whose stripped title contains
`"your location"` (case-insensitively) contributes nothing: removing it
from the marker list leaves the collector output unchanged, whatever its
description says — the `continue` fires before the keyword test. -/
theorem C9_your_location_excluded (today : String) (pre post : List HmMarker)
    (m : HmMarker)
    (h : strContains (pyLower (pyStrip m.title)) "your location" = true) :
    hm_process today (pre ++ m :: post) = hm_process today (pre ++ post) := by
  unfold hm_process
  rw [List.foldl_append, List.foldl_append, List.foldl_cons]
  congr 1
  unfold hmStep
  simp [h]

/-- Witness for C9: a marker titled `"Your Location"` whose description
contains the keyword `"virus"` is dropped, while an ordinary outbreak
marker survives. -/
theorem C9_your_location_excluded_witness :
    strContains (pyLower (pyStrip ("Your Location" : String)))
      "your location" = true ∧
    hm_process ("2025-03-01")
        ([] ++ ⟨"Your Location", some ("virus outbreak near you")⟩ ::
          [⟨"Measles - Ohio", some ("A measles outbreak")⟩]) =
      hm_process ("2025-03-01")
        ([] ++ [⟨"Measles - Ohio", some ("A measles outbreak")⟩]) :=
  ⟨by decide,
   C9_your_location_excluded ("2025-03-01") []
     [⟨"Measles - Ohio", some ("A measles outbreak")⟩]
     ⟨"Your Location", some ("virus outbreak near you")⟩ (by decide)⟩

/-- Unfolding lemma for `dedupAux` on a cons cell. -/
theorem dedupAux_cons (seen : List PreRow) (r : PreRow) (rest : List PreRow) :
    dedupAux seen (r :: rest) =
      if r ∈ seen then dedupAux seen rest
      else r :: dedupAux (r :: seen) rest := rfl

/-- The worker `dedupAux` reads `seen` only through membership. -/
theorem dedupAux_congr_seen (l : List PreRow) :
    ∀ seen seen' : List PreRow, (∀ y, y ∈ seen ↔ y ∈ seen') →
      dedupAux seen l = dedupAux seen' l := by
  induction l with
  | nil => intro seen seen' _; rfl
  | cons r rest ih =>
    intro seen seen' hss
    rw [dedupAux_cons, dedupAux_cons]
    by_cases h : r ∈ seen
    · rw [if_pos h, if_pos ((hss r).mp h), ih seen seen' hss]
    · rw [if_neg h, if_neg (fun h' => h ((hss r).mpr h'))]
      rw [ih (r :: seen) (r :: seen') fun y => by simp [List.mem_cons, hss y]]

/-- Pushing one remembered row into a filter on the remaining input. -/
theorem dedupAux_cons_seen (l : List PreRow) :
    ∀ (x : PreRow) (seen : List PreRow),
      dedupAux (x :: seen) l =
        dedupAux seen (l.filter fun y => decide (y ≠ x)) := by
  induction l with
  | nil => intro x seen; rfl
  | cons r rest ih =>
    intro x seen
    by_cases hx : r = x
    · subst hx
      rw [List.filter_cons_of_neg (by simp), dedupAux_cons,
        if_pos (by simp), ih r seen]
    · rw [List.filter_cons_of_pos (by simp [hx]), dedupAux_cons,
        dedupAux_cons]
      by_cases hr : r ∈ seen
      · rw [if_pos (by simp [List.mem_cons, hr]), if_pos hr, ih x seen]
      · rw [if_neg (by simp [List.mem_cons, hx, hr]), if_neg hr]
        rw [dedupAux_congr_seen rest (r :: x :: seen) (x :: r :: seen)
          (fun y => by simp [List.mem_cons]; tauto)]
        rw [ih x (r :: seen)]

/-- The worker `dedupAux` only ever drops rows: its output is a sublist of its input. -/
theorem dedupAux_sublist (l : List PreRow) :
    ∀ seen : List PreRow, (dedupAux seen l).Sublist l := by
  induction l with
  | nil => intro seen; exact List.Sublist.refl []
  | cons r rest ih =>
    intro seen
    rw [dedupAux_cons]
    by_cases h : r ∈ seen
    · rw [if_pos h]; exact (ih seen).cons r
    · rw [if_neg h]; exact (ih (r :: seen)).cons₂ r

/-- Multiplicity after `dedupAux`: a row already seen is never emitted; an
unseen row is emitted exactly once when it occurs at all. -/
theorem dedupAux_count (x : PreRow) (l : List PreRow) :
    ∀ seen : List PreRow,
      (dedupAux seen l).count x =
        if x ∈ seen then 0 else if x ∈ l then 1 else 0 := by
  induction l with
  | nil => intro seen; simp [dedupAux]
  | cons r rest ih =>
    intro seen
    rw [dedupAux_cons]
    by_cases h : r ∈ seen
    · rw [if_pos h, ih seen]
      by_cases hx : x ∈ seen
      · simp [hx]
      · have hxr : x ≠ r := fun he => hx (he ▸ h)
        simp [hx, List.mem_cons, hxr]
    · rw [if_neg h, List.count_cons, ih (r :: seen)]
      by_cases hx : x = r
      · subst hx
        simp [h, List.mem_cons]
      · have hrx : ¬r = x := fun he => hx he.symm
        simp [List.mem_cons, hx, hrx]

/-- Claim C5: `drop_duplicates` keeps the first occurrence of each distinct
row and drops exactly the rows equal to an earlier one, preserving the
relative order of survivors: it satisfies the first-occurrence recursion,
its output is a sublist of its input, and each row value present in the
input appears exactly once in the output — so two field-wise identical
rows at different positions yield one output row. -/
theorem C5_drop_duplicates (l : List PreRow) (x : PreRow) :
    dedup (x :: l) = x :: dedup (l.filter fun y => decide (y ≠ x)) ∧
    (dedup l).Sublist l ∧
    (dedup l).count x = (if x ∈ l then 1 else 0) := by
  refine ⟨?_, dedupAux_sublist l [], ?_⟩
  · show dedupAux [] (x :: l) = _
    rw [dedupAux_cons, if_neg (List.not_mem_nil x), dedupAux_cons_seen l x []]
    rfl
  · rw [dedup, dedupAux_count]
    simp

/-- A WHO-shaped record carrying a `source` field outside the enumeration. -/
def foreignSourceInput : Snapshot :=
  { who := some [{ RawItem.empty with
                   source := .str ("Mystery"),
                   title := .str ("virus outbreak") }],
    cdc := none, healthMap := none, wikipedia := none }

/-- Claim C4 is false as stated: a record whose `source` field holds a
value outside {WHO, CDC, HealthMap, Wikipedia} is passed through verbatim
(`item.get("source", source)` prefers the record's own value), not
omitted. -/
theorem C4_counterexample :
    (preprocess_data foreignSourceInput).map FinalRow.source = ["Mystery"] ∧
    ("Mystery" : String) ∉
      (["WHO", "CDC", "HealthMap", "Wikipedia"] : List String) := by
  decide

/-- The list `combine s` unfolded over the three visited snapshot keys. -/
theorem combine_eq (s : Snapshot) :
    combine s =
      (s.who.getD []).map (normalizeItem ("WHO")) ++
      (s.cdc.getD []).map (normalizeItem ("CDC")) ++
      (s.healthMap.getD []).map (normalizeItem ("HealthMap")) := by
  simp [combine, sourceEntries]

/-- Any row of the final table is the image of a surviving combined row. -/
theorem mem_finalizeRows {rows : List Row} {row : FinalRow}
    (h : row ∈ finalizeRows rows) : ∃ r ∈ rows, coerceRow r = row := by
  unfold finalizeRows at h
  by_cases he : rows.isEmpty
  · rw [if_pos he] at h
    exact absurd h (List.not_mem_nil row)
  · rw [if_neg he] at h
    exact List.mem_map.mp h

/-- Any combined row comes from one of the three visited sources. -/
theorem mem_combine {s : Snapshot} {p : PreRow} (hp : p ∈ combine s) :
    (∃ it ∈ s.who.getD [], normalizeItem ("WHO") it = p) ∨
    (∃ it ∈ s.cdc.getD [], normalizeItem ("CDC") it = p) ∨
    (∃ it ∈ s.healthMap.getD [], normalizeItem ("HealthMap") it = p) := by
  rw [combine_eq] at hp
  simp only [List.mem_append, List.mem_map] at hp
  rcases hp with (⟨it, hit, heq⟩ | ⟨it, hit, heq⟩) | ⟨it, hit, heq⟩
  · exact Or.inl ⟨it, hit, heq⟩
  · exact Or.inr (Or.inl ⟨it, hit, heq⟩)
  · exact Or.inr (Or.inr ⟨it, hit, heq⟩)

/-- A record without a `source` key is tagged with the snapshot key it was
found under, all the way to the final table. -/
theorem source_of_normalized {src : String} {it : RawItem}
    (h : it.source = .absent) :
    (coerceRow (fillna (normalizeItem src it))).source = src := by
  simp [normalizeItem, fillna, coerceRow, pyGet, h]

/-- Claim C4 (amended): when no raw record carries its own `source` field,
every final row's `source` is the snapshot key it came from, hence lies in
{WHO, CDC, HealthMap} (Wikipedia never contributes); but a record that does
carry a `source` field keeps that value verbatim — out-of-enumeration
values are not omitted. -/
theorem C4_amended_sources (s : Snapshot)
    (hw : ∀ it ∈ s.who.getD [], it.source = .absent)
    (hc : ∀ it ∈ s.cdc.getD [], it.source = .absent)
    (hh : ∀ it ∈ s.healthMap.getD [], it.source = .absent) :
    ∀ row ∈ preprocess_data s,
      row.source ∈ (["WHO", "CDC", "HealthMap"] : List String) := by
  intro row hrow
  unfold preprocess_data at hrow
  obtain ⟨r, hr, hcr⟩ := mem_finalizeRows hrow
  obtain ⟨p, hp, hfp⟩ := List.mem_map.mp hr
  have hpc : p ∈ combine s := (dedupAux_sublist (combine s) []).subset hp
  rcases mem_combine hpc with ⟨it, hit, hni⟩ | ⟨it, hit, hni⟩ | ⟨it, hit, hni⟩
  · have : row.source = "WHO" := by
      rw [← hcr, ← hfp, ← hni, source_of_normalized (hw it hit)]
    simp [this]
  · have : row.source = "CDC" := by
      rw [← hcr, ← hfp, ← hni, source_of_normalized (hc it hit)]
    simp [this]
  · have : row.source = "HealthMap" := by
      rw [← hcr, ← hfp, ← hni, source_of_normalized (hh it hit)]
    simp [this]

/-- A snapshot whose single record has no `source` key. -/
def noSourceKeyInput : Snapshot :=
  { who := some [{ RawItem.empty with title := .str ("flu outbreak") }],
    cdc := none, healthMap := none, wikipedia := none }

/-- Witness for the amended C4 at a concrete snapshot and its concrete
output row. -/
theorem C4_amended_sources_witness :
    (∀ it ∈ noSourceKeyInput.who.getD [], it.source = .absent) ∧
    (∀ it ∈ noSourceKeyInput.cdc.getD [], it.source = .absent) ∧
    (∀ it ∈ noSourceKeyInput.healthMap.getD [], it.source = .absent) ∧
    ({ source := "WHO", title := "flu outbreak", description := "",
       link := "", pubDate := none, location := "Unknown" } : FinalRow).source
      ∈ (["WHO", "CDC", "HealthMap"] : List String) :=
  ⟨by decide, by decide, by decide,
   C4_amended_sources noSourceKeyInput (by decide) (by decide) (by decide)
     { source := "WHO", title := "flu outbreak", description := "",
       link := "", pubDate := none, location := "Unknown" } (by decide)⟩

end DiseaseOutbreak
